import Mathlib

/-!
Verification of the create-srt pipeline (src/main.rs).

The program picks a media file, spawns ffmpeg to decode it to raw mono
16 kHz s16le PCM, writes the samples into `temp_audio.wav` via hound,
re-reads that WAV into a normalized f32 buffer, runs whisper over it and
formats the recognized segments as an SRT document.

Shallow embedding conventions:
- Rust `i64` arithmetic is embedded as `Int` with truncating division
  (`Int.tdiv` / `Int.tmod`), which is exactly what `/` and `%` compute on
  `i64` in Rust.  Overflow is not modelled (the tick values concerned are
  far below `2^63`).
- In Rust, `format!("{:02}", n)` zero-pads the decimal rendering to the
  given total width, the sign (for negatives) counting toward the width
  and the zeros inserted between the sign and the digits;
  `rustZeroPadInt` mirrors this.
- The f32 sample normalization `s as f32 / 32768.0` is embedded over `ℚ`:
  every i16 value is exactly representable in f32 and division by the
  power of two 32768 only shifts the exponent, so the Rust computation is
  exact and agrees with the rational one.
- The effects of `main` (temp WAV creation/finalization, SRT write, temp
  removal) are made explicit in an `Effects` record; external
  collaborators (the file dialog, ffmpeg, whisper) are inputs in an `Env`
  record.
-/

/-- Left-pad a decimal string with the digit zero up to `width` characters
(no-op when the string is already at least that wide). -/
def zeroPad (width : Nat) (s : String) : String :=
  if width ≤ s.length then s
  else String.mk (List.replicate (width - s.length) '0') ++ s

/-- The Rust zero-padded format of a signed integer at a given total
width: the minus sign counts toward the width and zeros go between the
sign and the digits. -/
def rustZeroPadInt (width : Nat) (n : Int) : String :=
  if n < 0 then "-" ++ zeroPad (width - 1) (toString (-n))
  else zeroPad width (toString n)

/-- Embedding of `format_srt_time` (src/main.rs lines 10-24): converts a
whisper tick count (`i64`, 10 ms units) to `HH:MM:SS,mmm`.  Division and
modulo on `i64` truncate toward zero, hence `tdiv`/`tmod`. -/
def format_srt_time (whisper_time : Int) : String :=
  let milliseconds := whisper_time * 10
  let seconds := milliseconds.tdiv 1000
  let ms := milliseconds.tmod 1000
  let minutes := seconds.tdiv 60
  let hours := minutes.tdiv 60
  rustZeroPadInt 2 hours ++ ":" ++ rustZeroPadInt 2 (minutes.tmod 60) ++ ":"
    ++ rustZeroPadInt 2 (seconds.tmod 60) ++ "," ++ rustZeroPadInt 3 ms

/-- The step-by-step time conversion stated by the spec (section 4.3,
steps 1-8), written over `Nat` for a non-negative tick count: used as the
comparison point for the refinement claim about `format_srt_time`. -/
def specFormatTime (t : Nat) : String :=
  let ms := t * 10
  let totalSeconds := ms / 1000
  let msRemainder := ms % 1000
  let totalMinutes := totalSeconds / 60
  let secRemainder := totalSeconds % 60
  let hours := totalMinutes / 60
  let minRemainder := totalMinutes % 60
  zeroPad 2 (toString hours) ++ ":" ++ zeroPad 2 (toString minRemainder) ++ ":"
    ++ zeroPad 2 (toString secRemainder) ++ "," ++ zeroPad 3 (toString msRemainder)

/-- A recognized segment as read back from whisper (src/main.rs lines
117-120): start tick `t0`, end tick `t1` (both `i64`), and the segment
text. -/
structure Segment where
  t0 : Int
  t1 : Int
  text : String

/-- One SRT cue as built by the loop body (src/main.rs lines 122-128) for
the segment at 0-based position `i`: the displayed index is `i + 1`. -/
def renderCue (i : Nat) (seg : Segment) : String :=
  toString (i + 1) ++ "\n" ++ format_srt_time seg.t0 ++ " --> " ++ format_srt_time seg.t1
    ++ "\n" ++ seg.text.trim ++ "\n\n"

/-- The cues of the document, one per segment, in emission order. -/
def srtCues (segs : List Segment) : List String :=
  segs.enum.map (fun p => renderCue p.1 p.2)

/-- Embedding of the formatting loop (src/main.rs lines 115-130):
`srt_content` starts empty and each iteration appends the cue of segment
`i`; `String.join` is exactly that left fold of `++` over `""`. -/
def formatSrt (segs : List Segment) : String :=
  String.join (srtCues segs)

/-- Embedding of the normalization map (src/main.rs lines 98-101):
`s as f32 / 32768.0` for each stored i16 sample, in order.  Every i16
value is exact in f32 and 32768 is a power of two, so the f32 computation
is exact and coincides with this rational one. -/
def normalizeSamples (samples : List Int) : List ℚ :=
  samples.map (fun s : Int => (s : ℚ) / 32768)

/-- The declared format of a WAV container (the `WavSpec` of hound as
used at src/main.rs lines 54-59); `sampleFormatInt` is true for
`SampleFormat::Int`. -/
structure WavHeader where
  channels : Nat
  sample_rate : Nat
  bits_per_sample : Nat
  sampleFormatInt : Bool
deriving DecidableEq

/-- The fixed spec the program writes (src/main.rs lines 54-59): mono,
16000 Hz, 16-bit signed integer. -/
def expectedSpec : WavHeader := ⟨1, 16000, 16, true⟩

/-- A finalized PCM container: declared header plus stored integer
samples. -/
structure WavFile where
  spec : WavHeader
  data : List Int
deriving DecidableEq

/-- Embedding of the sample-normalization stage (src/main.rs lines
97-101): `WavReader::open` followed by reading every sample as i16 and
unwrapping.  Per the semantics of hound, reading a sample as i16 yields
an error for a float-format container (InvalidSampleFormat) or an integer
container wider than 16 bits (TooWide); otherwise every stored sample is
read.  The unwrap panic on such an error is modelled as the error result.
Nothing in the code or the library compares the declared channel count or
sample rate against the expected spec. -/
def sampleNormalizerStage (w : WavFile) : Except String (List ℚ) :=
  if w.spec.sampleFormatInt then
    if 16 < w.spec.bits_per_sample then .error "TooWide"
    else .ok (normalizeSamples w.data)
  else .error "InvalidSampleFormat"

/-- A container whose declared format disagrees with the expected spec in
channel count and sample rate (stereo, 44100 Hz) yet normalizes fine. -/
def mismatchedWav : WavFile := ⟨⟨2, 44100, 16, true⟩, [0]⟩

/-- Embedding of `i16::from_le_bytes([b0, b1])` (src/main.rs line 81):
bytes are modelled as `Nat` and reduced mod 256 as a u8 is; the 16-bit
value is interpreted in two-complement form. -/
def i16FromLeBytes (b0 b1 : Nat) : Int :=
  let v := b0 % 256 + 256 * (b1 % 256)
  if v < 32768 then (v : Int) else (v : Int) - 65536

/-- Embedding of the read loop (src/main.rs lines 78-83): the loop
condition `reader.read_exact(&mut buffer).is_ok()` holds only while at
least 2 bytes remain; with 0 or 1 bytes left `read_exact` fails and the
loop simply ends — a single trailing byte is discarded and no error is
raised. -/
def readSamplesLoop : List Nat → List Int
  | b0 :: b1 :: rest => i16FromLeBytes b0 b1 :: readSamplesLoop rest
  | _ => []

/-- The external collaborators and environment facts `main` consumes: the
file-dialog outcome, whether the ffmpeg spawn and the `wait` call succeed,
the bytes ffmpeg emits on stdout and its exit status, whether the model
file exists, whether whisper context creation and inference succeed, and
the segments whisper reports. -/
structure Env where
  pickedFile : Option String
  spawnOk : Bool
  ffmpegOutput : List Nat
  ffmpegExitCode : Int
  waitOk : Bool
  modelExists : Bool
  ctxOk : Bool
  inferenceOk : Bool
  segments : List Segment

/-- The observable file-system effects of a run: whether `temp_audio.wav`
was created, the samples it holds once finalized, the content of the
written `.srt` file (if any), and whether the temp WAV was removed. -/
structure Effects where
  tempWavCreated : Bool
  tempWavSamples : Option (List Int)
  srtContent : Option String
  tempWavRemoved : Bool
deriving DecidableEq

/-- The effects of a run that touched nothing. -/
def noEffects : Effects := ⟨false, none, none, false⟩

/-- The fixed model path (src/main.rs line 49). -/
def model_path : String := "./ggml-kotoba-whisper-v2.0-q5_0.bin"

/-- Embedding of `main` (src/main.rs lines 26-143) as explicit state
passing over `Env`, with the file-system effects made explicit.  Mirrors
the source order: dialog; ffmpeg spawn; `WavWriter::create` (so the temp
WAV exists from the moment the spawn succeeded); the byte loop;
`child.wait()?` — which only propagates a failure of the `wait` call
itself, while its returned exit status (`env.ffmpegExitCode`) is
discarded and never consulted; `finalize`; the model-existence check
(only now, at lines 89-91); context load; re-reading the WAV the program
itself wrote (hence the fixed mono/16000/16-bit header); inference (a
panic on failure, modelled as an error); the formatting loop; the `.srt`
write and the temp-file removal.  Plain file-system writes are assumed to
succeed. -/
def main_run (env : Env) : Effects × Except String Unit :=
  match env.pickedFile with
  | none => (noEffects, .ok ())
  | some _ =>
    if env.spawnOk = false then (noEffects, .error "ffmpeg spawn failed")
    else
      let samples := readSamplesLoop env.ffmpegOutput
      if env.waitOk = false then
        ({ noEffects with tempWavCreated := true }, .error "wait failed")
      else
        let eff : Effects :=
          { tempWavCreated := true, tempWavSamples := some samples,
            srtContent := none, tempWavRemoved := false }
        if env.modelExists = false then
          (eff, .error ("model file missing: " ++ model_path))
        else if env.ctxOk = false then (eff, .error "whisper context load failed")
        else
          match sampleNormalizerStage ⟨⟨1, 16000, 16, true⟩, samples⟩ with
          | .error e => (eff, .error e)
          | .ok _audio_data =>
            if env.inferenceOk = false then (eff, .error "inference failed")
            else
              let eff2 : Effects :=
                { eff with
                  srtContent := some (formatSrt env.segments)
                  tempWavRemoved := true }
              (eff2, .ok ())

/-- A run whose PCM byte stream has odd length (a single byte). -/
def envOddByte : Env := ⟨some "video.mp4", true, [1], 0, true, true, true, true, []⟩

/-- A run in which ffmpeg exits with status 1 and everything else is
fine. -/
def envBadExit : Env := ⟨some "video.mp4", true, [], 1, true, true, true, true, []⟩

/-- A run in which the model file is absent and everything else is
fine. -/
def envNoModel : Env := ⟨some "video.mp4", true, [0, 1], 0, true, false, true, true, []⟩

/-- A run in which the user cancels the file dialog. -/
def envCancel : Env := ⟨none, true, [], 0, true, true, true, true, []⟩

lemma Int.toString_ofNat_eq (n : Nat) : toString (Int.ofNat n) = toString n := rfl

lemma rustZeroPadInt_ofNat (w : Nat) (n : Nat) :
    rustZeroPadInt w (Int.ofNat n) = zeroPad w (toString n) := by
  unfold rustZeroPadInt
  rw [if_neg (by exact Int.not_lt.mpr (Int.ofNat_nonneg n)), Int.toString_ofNat_eq]

lemma ofNat_tdiv (m n : Nat) : (Int.ofNat m).tdiv (Int.ofNat n) = Int.ofNat (m / n) := rfl

lemma ofNat_tmod (m n : Nat) : (Int.ofNat m).tmod (Int.ofNat n) = Int.ofNat (m % n) := rfl

/-- On non-negative ticks the Rust function agrees with the all-`Nat`
algorithm of the spec. -/
lemma format_srt_time_ofNat (t : Nat) :
    format_srt_time (Int.ofNat t) = specFormatTime t := rfl

lemma length_zeroPad (w : Nat) (s : String) : (zeroPad w s).length = max w s.length := by
  unfold zeroPad
  split
  · next h => exact (Nat.max_eq_right h).symm
  · next h =>
      rw [String.length_append]
      show (List.replicate (w - s.length) '0').length + s.length = max w s.length
      rw [List.length_replicate]
      omega

lemma length_srtCues (segs : List Segment) : (srtCues segs).length = segs.length := by
  simp [srtCues, List.enum_eq_enumFrom]

lemma readSamplesLoop_length (bytes : List Nat) :
    (readSamplesLoop bytes).length = bytes.length / 2 := by
  induction bytes using readSamplesLoop.induct with
  | case1 b0 b1 rest ih => simp [readSamplesLoop, ih]; omega
  | case2 x h => cases x with
    | nil => simp [readSamplesLoop]
    | cons a t => cases t with
      | nil => simp [readSamplesLoop]
      | cons c d => exact absurd rfl (h a c d)

lemma readSamplesLoop_dropLast (bytes : List Nat) (h : bytes.length % 2 = 1) :
    readSamplesLoop bytes = readSamplesLoop bytes.dropLast := by
  induction bytes using readSamplesLoop.induct with
  | case1 b0 b1 rest ih =>
      cases rest with
      | nil => simp at h
      | cons c d =>
          rw [List.dropLast_cons₂, List.dropLast_cons₂]
          have h2 : (c :: d).length % 2 = 1 := by simp at h ⊢; omega
          rw [show readSamplesLoop (b0 :: b1 :: c :: d) =
                i16FromLeBytes b0 b1 :: readSamplesLoop (c :: d) from rfl]
          rw [show readSamplesLoop (b0 :: b1 :: (c :: d).dropLast) =
                i16FromLeBytes b0 b1 :: readSamplesLoop ((c :: d).dropLast) from rfl]
          rw [ih h2]
  | case2 x hx => cases x with
    | nil => simp at h
    | cons a t => cases t with
      | nil => simp [readSamplesLoop]
      | cons c d => exact absurd rfl (hx a c d)

/-- C1: the time-to-timestamp conversion computes `ms = t * 10` and
derives hours, minutes, seconds and milliseconds by truncating division
and modulo, rendering `HH:MM:SS,mmm` with 2-digit-padded minutes/seconds
and 3-digit-padded milliseconds (the spec algorithm `specFormatTime`),
and the four sample ticks render as the spec states. -/
theorem C1_time_formatting :
    (∀ t : Nat, format_srt_time (Int.ofNat t) = specFormatTime t)
    ∧ format_srt_time 0 = "00:00:00,000"
    ∧ format_srt_time 100 = "00:00:01,000"
    ∧ format_srt_time 360000 = "01:00:00,000"
    ∧ format_srt_time 5999 = "00:00:59,990" :=
  ⟨format_srt_time_ofNat, by decide, by decide, by decide, by decide⟩

/-- C10: for every non-negative tick count the rendered timestamp is
well-formed `HH:MM:SS,mmm`: the minutes and seconds values are below 60,
the milliseconds value is below 1000 and divisible by 10, and the hours
field is the zero-padded decimal rendering of the full (untruncated)
hours quotient, hence always at least 2 characters and one character per
decimal digit beyond two. -/
theorem C10_timestamp_well_formed (t : Nat) :
    format_srt_time (Int.ofNat t) =
      zeroPad 2 (toString (t * 10 / 1000 / 60 / 60)) ++ ":"
        ++ zeroPad 2 (toString (t * 10 / 1000 / 60 % 60)) ++ ":"
        ++ zeroPad 2 (toString (t * 10 / 1000 % 60)) ++ ","
        ++ zeroPad 3 (toString (t * 10 % 1000))
    ∧ t * 10 / 1000 / 60 % 60 < 60
    ∧ t * 10 / 1000 % 60 < 60
    ∧ t * 10 % 1000 < 1000
    ∧ t * 10 % 1000 % 10 = 0
    ∧ (zeroPad 2 (toString (t * 10 / 1000 / 60 / 60))).length =
        max 2 (toString (t * 10 / 1000 / 60 / 60)).length := by
  refine ⟨format_srt_time_ofNat t, Nat.mod_lt _ (by norm_num),
    Nat.mod_lt _ (by norm_num), Nat.mod_lt _ (by norm_num), ?_, length_zeroPad 2 _⟩
  rw [Nat.mod_mod_of_dvd _ (by norm_num : (10 : Nat) ∣ 1000), Nat.mul_mod_left]

/-- C6: the document is the concatenation of exactly one cue per segment,
in emission order; the cue at position `k` displays index `k + 1` and the
times and trimmed text of that very segment; and every cue is a nonempty
string (an empty-text segment still yields a cue with an empty body
line). -/
theorem C6_cue_count_and_order (segs : List Segment) :
    formatSrt segs = String.join (srtCues segs)
    ∧ (srtCues segs).length = segs.length
    ∧ (∀ (k : Nat) (hk : k < segs.length),
        (srtCues segs).getD k "" =
          toString (k + 1) ++ "\n" ++ format_srt_time (segs.get ⟨k, hk⟩).t0 ++ " --> "
            ++ format_srt_time (segs.get ⟨k, hk⟩).t1 ++ "\n"
            ++ (segs.get ⟨k, hk⟩).text.trim ++ "\n\n")
    ∧ (∀ (k : Nat) (seg : Segment), (renderCue k seg).length ≠ 0) := by
  refine ⟨rfl, length_srtCues segs, ?_, ?_⟩
  · intro k hk
    have hk' : k < (srtCues segs).length := by rw [length_srtCues]; exact hk
    rw [List.getD_eq_getElem?_getD, List.getElem?_eq_getElem hk']
    simp [srtCues, List.enum_eq_enumFrom, renderCue]
  · intro k seg
    have h2 : ("\n\n" : String).length = 2 := rfl
    simp only [renderCue, String.length_append]
    omega

theorem C6_witness :
    (srtCues [⟨0, 100, ""⟩]).getD 0 "" =
      toString 1 ++ "\n" ++ format_srt_time (0 : Int) ++ " --> "
        ++ format_srt_time (100 : Int) ++ "\n" ++ ("" : String).trim ++ "\n\n" :=
  (C6_cue_count_and_order [⟨0, 100, ""⟩]).2.2.1 0 (by decide)

/-- C9: the formatter is deterministic — two runs over equal segment
lists produce byte-identical subtitle text. -/
theorem C9_formatting_deterministic (s1 s2 : List Segment) (h : s1 = s2) :
    formatSrt s1 = formatSrt s2 :=
  congrArg formatSrt h

theorem C9_witness :
    formatSrt [⟨0, 100, " a "⟩] = formatSrt [⟨0, 100, " a "⟩] :=
  C9_formatting_deterministic [⟨0, 100, " a "⟩] [⟨0, 100, " a "⟩] rfl

/-- C5: normalization maps each stored sample `s`, in order (also
positionally via `getD`), to `s / 32768`; the value -32768 maps exactly
to -1, the value 32767 maps to `32767 / 32768`, which is strictly below 1
(not clamped), and 0 maps to 0. -/
theorem C5_sample_normalization :
    normalizeSamples [-32768, 0, 32767] = [-1, 0, 32767 / 32768]
    ∧ (32767 : ℚ) / 32768 < 1
    ∧ (∀ l : List Int, (normalizeSamples l).length = l.length)
    ∧ (∀ (l : List Int) (k : Nat),
        (normalizeSamples l).getD k 0 = ((l.getD k 0 : Int) : ℚ) / 32768) := by
  refine ⟨by norm_num [normalizeSamples], by norm_num, ?_, ?_⟩
  · intro l
    simp [normalizeSamples]
  · intro l k
    rw [List.getD_eq_getElem?_getD, List.getD_eq_getElem?_getD]
    unfold normalizeSamples
    rw [List.getElem?_map]
    cases l[k]? with
    | none => norm_num
    | some a => simp

theorem C7_counterexample :
    mismatchedWav.spec ≠ expectedSpec
    ∧ sampleNormalizerStage mismatchedWav = .ok (normalizeSamples mismatchedWav.data) :=
  ⟨by decide, rfl⟩

/-- C7 (amended): the outcome of the stage is independent of the declared
channel count and sample rate; any 16-bit integer container — whatever
its channel count or sample rate — normalizes successfully, and only a
float-format container or one wider than 16 bits makes the stage fail. -/
theorem C7_format_mismatch_amended :
    (∀ (w : WavFile) (c r : Nat),
      sampleNormalizerStage ⟨⟨c, r, w.spec.bits_per_sample, w.spec.sampleFormatInt⟩, w.data⟩
        = sampleNormalizerStage w)
    ∧ (∀ (c r : Nat) (data : List Int),
        sampleNormalizerStage ⟨⟨c, r, 16, true⟩, data⟩ = .ok (normalizeSamples data))
    ∧ (∀ w : WavFile, w.spec.sampleFormatInt = false →
        sampleNormalizerStage w = .error "InvalidSampleFormat")
    ∧ (∀ w : WavFile, w.spec.sampleFormatInt = true → 16 < w.spec.bits_per_sample →
        sampleNormalizerStage w = .error "TooWide") := by
  refine ⟨fun w c r => rfl, fun c r data => rfl, ?_, ?_⟩
  · intro w h
    simp [sampleNormalizerStage, h]
  · intro w h1 h2
    simp [sampleNormalizerStage, h1, h2]

theorem C7_amended_witness :
    sampleNormalizerStage ⟨⟨1, 16000, 16, false⟩, []⟩ = .error "InvalidSampleFormat" :=
  C7_format_mismatch_amended.2.2.1 ⟨⟨1, 16000, 16, false⟩, []⟩ rfl

theorem C2_counterexample :
    envOddByte.ffmpegOutput.length % 2 = 1
    ∧ main_run envOddByte = (⟨true, some [], some "", true⟩, .ok ()) :=
  ⟨rfl, rfl⟩

/-- C2 (amended): a PCM byte stream of odd total length raises no error
at all — the sink decodes one sample per full byte pair (`len / 2`
samples) and silently discards the trailing byte: the result is the same
as for the stream with its last byte removed. -/
theorem C2_truncated_stream_amended (bytes : List Nat) :
    (readSamplesLoop bytes).length = bytes.length / 2
    ∧ (bytes.length % 2 = 1 → readSamplesLoop bytes = readSamplesLoop bytes.dropLast) :=
  ⟨readSamplesLoop_length bytes, readSamplesLoop_dropLast bytes⟩

theorem C2_amended_witness : readSamplesLoop [1, 2, 3] = readSamplesLoop [1, 2] :=
  (C2_truncated_stream_amended [1, 2, 3]).2 (by decide)

theorem C3_counterexample :
    envBadExit.ffmpegExitCode ≠ 0
    ∧ main_run envBadExit = (⟨true, some [], some "", true⟩, .ok ()) :=
  ⟨by decide, rfl⟩

/-- C3 (amended): the exit status of the decode process is never
inspected — `child.wait()?` only propagates a failure of the `wait` call
itself and discards the returned status — so the effects and outcome of a
run are identical for every exit code, and in particular a nonzero exit
does not fail the pipeline. -/
theorem C3_exit_status_ignored_amended (env : Env) (c1 c2 : Int) :
    main_run { env with ffmpegExitCode := c1 }
      = main_run { env with ffmpegExitCode := c2 } := by
  cases env
  rfl

theorem C4_counterexample :
    envNoModel.modelExists = false
    ∧ main_run envNoModel =
        (⟨true, some [256], none, false⟩,
         .error ("model file missing: " ++ model_path)) :=
  ⟨rfl, rfl⟩

/-- C4 (amended): a missing model artifact is a fatal error, but it is
detected only after the audio-extraction stage has run to completion: the
temp WAV has been created and fully written (and is left behind), though
no subtitle file is written. -/
theorem C4_missing_model_amended (env : Env) (p : String)
    (hp : env.pickedFile = some p) (hs : env.spawnOk = true) (hw : env.waitOk = true)
    (hm : env.modelExists = false) :
    main_run env =
      (⟨true, some (readSamplesLoop env.ffmpegOutput), none, false⟩,
       .error ("model file missing: " ++ model_path)) := by
  unfold main_run
  rw [hp]
  simp [hs, hw, hm]

theorem C4_amended_witness :
    main_run envNoModel =
      (⟨true, some (readSamplesLoop envNoModel.ffmpegOutput), none, false⟩,
       .error ("model file missing: " ++ model_path)) :=
  C4_missing_model_amended envNoModel "video.mp4" rfl rfl rfl rfl

/-- C8: when the user cancels file selection the run returns success with
zero side effects — no temp WAV is created and no subtitle file is
written. -/
theorem C8_cancel_clean_exit (env : Env) (h : env.pickedFile = none) :
    main_run env = (noEffects, .ok ()) := by
  unfold main_run
  rw [h]

theorem C8_witness : main_run envCancel = (noEffects, .ok ()) :=
  C8_cancel_clean_exit envCancel rfl
